import Mathlib

/-!
Shallow embedding of `aliyunCDTcheck.py`: a single-shot traffic monitor that
loads configuration (environment defaults, optional JSON file override),
fetches a traffic total from a cloud API, compares it against a threshold,
and posts a Feishu webhook notification.

Network effects are modelled by passing the outcome of each outbound call
(`FetchOutcome` for the traffic API, `PostOutcome` for the webhook POST) as an
explicit argument.  Log lines are collected as lists of message strings
(`write_log`'s timestamp prefix is not modelled).  Python floats are modelled
as exact rationals.
-/

/-- Truncation of a rational toward zero, the behaviour of Python's `int()`
on a (non-integral) float such as `20.5`. -/
def ratTrunc (q : ℚ) : ℤ :=
  if 0 ≤ q then ⌊q⌋ else ⌈q⌉

/-- Python `int()` applied to a string: an optional sign followed by decimal
digits; anything else raises `ValueError`.  (Python additionally strips
whitespace and allows `_` separators; not modelled, irrelevant here.)
Returns `none` when `int()` would raise. -/
def pyStrToInt? (s : String) : Option ℤ :=
  let digitsVal : List Char → Option ℕ :=
    fun cs => cs.foldl (fun acc c =>
      match acc with
      | none => none
      | some n => if c.isDigit then some (n * 10 + (c.toNat - 48)) else none)
      (some 0)
  match s.data with
  | [] => none
  | '-' :: rest => if rest = [] then none else (digitsVal rest).map (fun n => -(n : ℤ))
  | '+' :: rest => if rest = [] then none else (digitsVal rest).map (fun n => (n : ℤ))
  | cs => (digitsVal cs).map (fun n => (n : ℤ))

/-- A JSON value as far as the threshold key is concerned: a number (JSON
numbers, including floats), a string, or anything else (null, array, object). -/
inductive JVal where
  | num (q : ℚ)
  | str (s : String)
  | other
deriving DecidableEq

/-- Python `int()` coercion of a JSON value, as applied on line 24 of the
source (`int(config.get("max_traffic_gb", _max_traffic_gb))`).  Error strings
abbreviate the `ValueError`/`TypeError` messages. -/
def pyInt : JVal → Except String ℤ
  | .num q => .ok (ratTrunc q)
  | .str s =>
      match pyStrToInt? s with
      | some n => .ok n
      | none => .error ("invalid literal for int() with base 10: " ++ s)
  | .other => .error "int() argument must be a string or a number"

/-- The four module-level configuration variables of the script
(`_access_key_id`, `_access_key_secret`, `_max_traffic_gb`,
`_feishu_webhook_url`).  The threshold is an `ℤ` because the script always
passes it through `int()`. -/
structure ConfigState where
  access_key_id : String
  access_key_secret : String
  max_traffic_gb : ℤ
  feishu_webhook_url : String
deriving DecidableEq

/-- The parsed contents of `aliyunCDTconfig.json`: each of the four keys is
independently present or absent.  The threshold value is kept as a raw JSON
value because the script applies `int()` to it. -/
structure ConfigFile where
  access_key_id : Option String
  access_key_secret : Option String
  max_traffic_gb : Option JVal
  feishu_webhook_url : Option String

/-- The module-level initialisation (lines 11-14): each variable defaults from
its environment variable, with `MAX_TRAFFIC_GB` (default `"20"`) passed
through `int()`, which raises on a non-numeric value. -/
def env_defaults (id secret maxStr url : Option String) : Except String ConfigState :=
  match pyStrToInt? (maxStr.getD "20") with
  | some t => .ok ⟨id.getD "", secret.getD "", t, url.getD ""⟩
  | none => .error ("invalid literal for int() with base 10: " ++ maxStr.getD "20")

/-- `load_config` (lines 16-27): `none` for the file means `FileNotFoundError`,
which is caught and ignored.  Each key present in the file overrides the
corresponding variable; the threshold goes through `int()`, whose exception
(for a non-numeric value) propagates uncaught. -/
def load_config (cfg : ConfigState) (file : Option ConfigFile) : Except String ConfigState :=
  match file with
  | none => .ok cfg
  | some c =>
      match (match c.max_traffic_gb with
             | none => Except.ok cfg.max_traffic_gb
             | some v => pyInt v) with
      | .error e => .error e
      | .ok t =>
          .ok { access_key_id := c.access_key_id.getD cfg.access_key_id
                access_key_secret := c.access_key_secret.getD cfg.access_key_secret
                max_traffic_gb := t
                feishu_webhook_url := c.feishu_webhook_url.getD cfg.feishu_webhook_url }

/-- Round half to even at integer precision, the rounding used by Python's
fixed-point float formatting (`f"{x:.3f}"`). -/
def roundHalfEven (r : ℚ) : ℤ :=
  let n := r.num
  let d := (r.den : ℤ)
  let m := Int.fdiv n d
  let rem := n - m * d
  if 2 * rem < d then m
  else if d < 2 * rem then m + 1
  else if m % 2 = 0 then m else m + 1

/-- Python fixed-point formatting `f"{q:.precf}"` on an exact rational:
round half to even at `prec` decimal places and render with exactly `prec`
fractional digits. -/
def formatFixed (prec : ℕ) (q : ℚ) : String :=
  let scaled := roundHalfEven (q * (10 : ℚ) ^ prec)
  let n := scaled.natAbs
  let ip := n / 10 ^ prec
  let fr := n % 10 ^ prec
  let frStr := toString fr
  let pad := String.mk (List.replicate (prec - frStr.length) '0')
  (if scaled < 0 then "-" else "") ++ toString ip ++
    (if prec = 0 then "" else "." ++ pad ++ frStr)

/-- Outcome of the one traffic-API call: either the awaited call raises
(transport error, authentication error, ...) with some message, or it returns
a response with a status code and a list of traffic-detail records, each
optionally carrying a byte count (`item.traffic`, `None` when absent). -/
inductive FetchOutcome where
  | raise (msg : String)
  | response (status : ℕ) (details : List (Option ℕ))

/-- Line 46-49: `sum(item.traffic for item in ... if item.traffic is not None)`. -/
def sumTraffic (details : List (Option ℕ)) : ℕ :=
  (details.filterMap id).sum

/-- `get_traffic_gb` (lines 33-53): on a 200 response, sum the present byte
counts and divide by 1024³; on an exception, log and return 0; on a non-200
response, fall through to `return 0` (note: without logging).
Returns the value together with the log lines emitted. -/
def get_traffic_gb (fo : FetchOutcome) : ℚ × List String :=
  match fo with
  | .raise e => (0, ["获取流量失败: " ++ e])
  | .response status details =>
      if status = 200 then ((sumTraffic details : ℚ) / 1024 ^ 3, [])
      else (0, [])

/-- Outcome of the webhook POST: the awaited call raises, or returns a
response with a status code. -/
inductive PostOutcome where
  | raise (msg : String)
  | response (status : ℕ)

/-- The Feishu card message built on lines 89-112, flattened to its variable
parts: `msg_type`, `card.config.wide_screen_mode`, the single text element's
`content`, and the header's `template` (colour) and `title`. -/
structure FeishuMessage where
  msg_type : String
  wide_screen_mode : Bool
  content : String
  template : String
  title : String
deriving DecidableEq, Inhabited

/-- The message value built by `send_feishu_alert` for a given report
(lines 79-112).  The percentage is `(traffic_gb/max_traffic_gb)*100`
formatted to one decimal place, the traffic to three. -/
def feishu_message (traffic_gb : ℚ) (max_traffic_gb : ℤ) (is_exceeded : Bool) : FeishuMessage :=
  { msg_type := "interactive"
    wide_screen_mode := true
    content := "**阿里云CDT流量监控**\n\n当前流量: " ++ formatFixed 3 traffic_gb ++
      " GB\n阈值限制: " ++ toString max_traffic_gb ++ " GB\n使用率: " ++
      formatFixed 1 (traffic_gb / (max_traffic_gb : ℚ) * 100) ++ "%\n\n" ++
      (if is_exceeded then "❌ 流量已超过设定阈值，请及时处理！"
       else "✅ 流量使用正常，未超过阈值")
    template := if is_exceeded then "red" else "green"
    title := if is_exceeded then "🚨 流量超限告警" else "✅ 流量正常通知" }

/-- Result of `send_feishu_alert`: its boolean return value, the outbound
POSTs it performed (in order), and the log lines it emitted. -/
structure SendResult where
  retVal : Bool
  posts : List FeishuMessage
  logs : List String
deriving DecidableEq

/-- `send_feishu_alert` (lines 71-125).  An empty webhook URL short-circuits
with a log and `False` before any network activity.  A zero threshold makes
the percentage computation on line 100 raise `ZeroDivisionError`, caught by
the `except` on line 123 before any POST happens.  Otherwise exactly one POST
of the built message is attempted: status 200 returns `True`, any other
status logs and returns `False`, and a raised transport error logs and
returns `False`. -/
def send_feishu_alert (webhook_url : String) (po : PostOutcome) (traffic_gb : ℚ)
    (max_traffic_gb : ℤ) (is_exceeded : Bool) : SendResult :=
  if webhook_url = "" then
    { retVal := false, posts := [], logs := ["飞书webhook地址未配置，无法发送通知"] }
  else if max_traffic_gb = 0 then
    { retVal := false, posts := [], logs := ["发送飞书通知时出错: division by zero"] }
  else
    let msg := feishu_message traffic_gb max_traffic_gb is_exceeded
    match po with
    | .raise e => { retVal := false, posts := [msg], logs := ["发送飞书通知时出错: " ++ e] }
    | .response s =>
        if s = 200 then { retVal := true, posts := [msg], logs := ["飞书通知发送成功"] }
        else { retVal := false, posts := [msg], logs := ["飞书通知发送失败: " ++ toString s] }

/-- Result of `check_traffic`: its boolean return value, the `is_exceeded`
flag it passed to the notifier (i.e. which branch was taken), the log lines,
and the outbound POSTs performed. -/
structure CheckResult where
  retVal : Bool
  exceeded : Bool
  logs : List String
  posts : List FeishuMessage
deriving DecidableEq

/-- The body of `check_traffic` after the fetch (lines 58-69): log the status
line, branch on `traffic_gb > _max_traffic_gb`, call `send_feishu_alert` with
the corresponding `is_exceeded` flag (its return value discarded), and return
`False` on the exceeded branch, `True` on the normal branch. -/
def check_traffic_core (traffic_gb : ℚ) (max_traffic_gb : ℤ) (webhook_url : String)
    (po : PostOutcome) : CheckResult :=
  let statusLog := "当前流量: " ++ formatFixed 4 traffic_gb ++ " GB / 阈值: " ++
    toString max_traffic_gb ++ " GB"
  if (max_traffic_gb : ℚ) < traffic_gb then
    let r := send_feishu_alert webhook_url po traffic_gb max_traffic_gb true
    { retVal := false, exceeded := true,
      logs := [statusLog, "⚠️ 流量已超限！"] ++ r.logs, posts := r.posts }
  else
    let r := send_feishu_alert webhook_url po traffic_gb max_traffic_gb false
    { retVal := true, exceeded := false,
      logs := [statusLog, "✅ 流量正常"] ++ r.logs, posts := r.posts }

/-- `check_traffic` (lines 55-69): fetch the traffic value, then run the
decision/notification body. -/
def check_traffic (webhook_url : String) (fo : FetchOutcome) (po : PostOutcome)
    (max_traffic_gb : ℤ) : CheckResult :=
  let fetched := get_traffic_gb fo
  let core := check_traffic_core fetched.1 max_traffic_gb webhook_url po
  { core with logs := fetched.2 ++ core.logs }

/-- Substring containment, for stating what the message body contains. -/
def strContains (hay needle : String) : Prop :=
  ∃ pre post, hay = pre ++ needle ++ post

/-- The sum demanded by the specification: the byte counts of exactly those
records whose byte count is present participate; absent records are skipped
outright. -/
def sumPresent : List (Option ℕ) → ℕ
  | [] => 0
  | some b :: rest => b + sumPresent rest
  | none :: rest => sumPresent rest

theorem sumTraffic_eq_sumPresent (l : List (Option ℕ)) : sumTraffic l = sumPresent l := by
  induction l with
  | nil => rfl
  | cons hd tl ih =>
      cases hd <;> simp [sumTraffic, sumPresent, List.filterMap_cons] at * <;> omega

/-- C1: the decision stage reports exceeded exactly when the measured value is
strictly greater than the threshold; at equality it reports not exceeded,
returns `True`, and takes the normal notification branch (logging the normal
status line). -/
theorem check_traffic_exceeded_iff_gt (g : ℚ) (t : ℤ) (w : String) (po : PostOutcome) :
    ((check_traffic_core g t w po).exceeded = true ↔ (t : ℚ) < g) ∧
    (g = (t : ℚ) →
      (check_traffic_core g t w po).exceeded = false ∧
      (check_traffic_core g t w po).retVal = true ∧
      "✅ 流量正常" ∈ (check_traffic_core g t w po).logs) := by
  by_cases h : (t : ℚ) < g
  · refine ⟨by simp [check_traffic_core, h], fun hg => ?_⟩
    rw [hg] at h
    exact absurd h (lt_irrefl _)
  · exact ⟨by simp [check_traffic_core, h], fun _ => by simp [check_traffic_core, h]⟩

/-- C1 witness: at measured = threshold = 20 the report is not exceeded, the
check returns `True`, and the normal log line is emitted. -/
theorem check_traffic_exceeded_iff_gt_witness :
    (check_traffic_core 20 20 "" (PostOutcome.response 200)).exceeded = false ∧
    (check_traffic_core 20 20 "" (PostOutcome.response 200)).retVal = true ∧
    "✅ 流量正常" ∈ (check_traffic_core 20 20 "" (PostOutcome.response 200)).logs :=
  (check_traffic_exceeded_iff_gt 20 20 "" (PostOutcome.response 200)).2 (by norm_num)

/-- C9: `check_traffic` returns `True` exactly when the fetched value does not
exceed the threshold, its return value is the negation of the exceeded flag,
and it is independent of the webhook URL and of the notification POST's
outcome (the notifier's boolean result is discarded). -/
theorem check_traffic_retval_ignores_notifier (w : String) (fo : FetchOutcome)
    (po : PostOutcome) (t : ℤ) :
    ((check_traffic w fo po t).retVal = true ↔ (get_traffic_gb fo).1 ≤ (t : ℚ)) ∧
    ((check_traffic w fo po t).retVal = !(check_traffic w fo po t).exceeded) ∧
    (∀ w' po', (check_traffic w fo po t).retVal = (check_traffic w' fo po' t).retVal) := by
  by_cases h : (t : ℚ) < (get_traffic_gb fo).1
  · refine ⟨?_, ?_, fun w' po' => ?_⟩ <;>
      simp [check_traffic, check_traffic_core, h, not_le.mpr h]
  · refine ⟨?_, ?_, fun w' po' => ?_⟩ <;>
      simp [check_traffic, check_traffic_core, h, not_lt.mp h]

/-- C4: with an empty webhook URL the notifier returns `False`, performs no
outbound POST, logs only the "not configured" line, and the surrounding check
still completes normally with its usual return value. -/
theorem send_feishu_alert_empty_webhook (po : PostOutcome) (g : ℚ) (t : ℤ) (ex : Bool) :
    (send_feishu_alert "" po g t ex).retVal = false ∧
    (send_feishu_alert "" po g t ex).posts = [] ∧
    (send_feishu_alert "" po g t ex).logs = ["飞书webhook地址未配置，无法发送通知"] ∧
    (∀ fo, (check_traffic "" fo po t).retVal = decide ((get_traffic_gb fo).1 ≤ (t : ℚ))) := by
  refine ⟨rfl, rfl, rfl, fun fo => ?_⟩
  by_cases h : (t : ℚ) < (get_traffic_gb fo).1
  · simp [check_traffic, check_traffic_core, h, not_le.mpr h]
  · simp [check_traffic, check_traffic_core, h, not_lt.mp h]

/-- C3: on a 200 response the fetched value is the sum of the byte counts of
exactly those records whose byte count is present (absent records are skipped
outright), divided by 1024³; in particular records
`[500000000, absent, 300000000]` sum to 800000000 bytes. -/
theorem get_traffic_gb_sums_present_records (d : List (Option ℕ)) :
    (get_traffic_gb (FetchOutcome.response 200 d)).1 = (sumPresent d : ℚ) / 1024 ^ 3 ∧
    (get_traffic_gb (FetchOutcome.response 200 [some 500000000, none, some 300000000])).1
      = (800000000 : ℚ) / 1024 ^ 3 := by
  constructor
  · simp [get_traffic_gb, sumTraffic_eq_sumPresent]
  · rw [show (get_traffic_gb (FetchOutcome.response 200
          [some 500000000, none, some 300000000])).1
        = ((sumTraffic [some 500000000, none, some 300000000] : ℕ) : ℚ) / 1024 ^ 3 from rfl,
      show sumTraffic [some 500000000, none, some 300000000] = 800000000 from rfl]
    norm_num

/-- C8: the byte-to-gigabyte conversion divides the summed total by 1024³, and
a total of 21474836480 bytes yields exactly 20 GB. -/
theorem get_traffic_gb_byte_conversion :
    (get_traffic_gb (FetchOutcome.response 200 [some 21474836480])).1 = 20 ∧
    (∀ n : ℕ, (get_traffic_gb (FetchOutcome.response 200 [some n])).1 = (n : ℚ) / 1024 ^ 3) := by
  constructor
  · rw [show (get_traffic_gb (FetchOutcome.response 200 [some 21474836480])).1
        = ((sumTraffic [some 21474836480] : ℕ) : ℚ) / 1024 ^ 3 from rfl,
      show sumTraffic [some 21474836480] = 21474836480 from rfl]
    norm_num
  · intro n
    simp [get_traffic_gb, sumTraffic]

/-- C2 counterexample: a 500-status response makes the fetcher return 0 GB but
emit no log line at all, refuting the claim that every non-200 status results
in a logged error. -/
theorem get_traffic_gb_non200_logs_nothing :
    (get_traffic_gb (FetchOutcome.response 500 [])).2 = [] ∧
    (get_traffic_gb (FetchOutcome.response 500 [])).1 = 0 := by
  constructor <;> rfl

/-- C2 amended: a raised transport/authentication error yields 0 GB with a
logged error; a non-200 status yields 0 GB silently (no log); in both cases
the run continues into the decision and notification stages, behaving exactly
like a run whose measured value is 0. -/
theorem get_traffic_gb_failure_amended (e : String) (s : ℕ) (hs : s ≠ 200)
    (d : List (Option ℕ)) (w : String) (po : PostOutcome) (t : ℤ) :
    get_traffic_gb (FetchOutcome.raise e) = (0, ["获取流量失败: " ++ e]) ∧
    get_traffic_gb (FetchOutcome.response s d) = (0, []) ∧
    (check_traffic w (FetchOutcome.raise e) po t).retVal
      = (check_traffic_core 0 t w po).retVal ∧
    (check_traffic w (FetchOutcome.raise e) po t).posts
      = (check_traffic_core 0 t w po).posts ∧
    (check_traffic w (FetchOutcome.response s d) po t).retVal
      = (check_traffic_core 0 t w po).retVal ∧
    (check_traffic w (FetchOutcome.response s d) po t).posts
      = (check_traffic_core 0 t w po).posts := by
  refine ⟨rfl, by simp [get_traffic_gb, hs], rfl, rfl, ?_, ?_⟩ <;>
    simp [check_traffic, get_traffic_gb, hs]

/-- C2 amended witness: at status 500 the fetch yields 0 GB with no log, and a
raised error still lets the check run to completion. -/
theorem get_traffic_gb_failure_amended_witness :
    get_traffic_gb (FetchOutcome.response 500 []) = (0, []) ∧
    (check_traffic "" (FetchOutcome.raise "timeout") (PostOutcome.response 200) 20).retVal
      = (check_traffic_core 0 20 "" (PostOutcome.response 200)).retVal :=
  ⟨(get_traffic_gb_failure_amended "timeout" 500 (by decide) [] "" (PostOutcome.response 200) 20).2.1,
   (get_traffic_gb_failure_amended "timeout" 500 (by decide) [] "" (PostOutcome.response 200) 20).2.2.1⟩

theorem ratTrunc_intCast (n : ℤ) : ratTrunc (n : ℚ) = n := by
  unfold ratTrunc
  split
  · exact Int.floor_intCast n
  · exact Int.ceil_intCast n

/-- C6: configuration fields are overridden independently: an absent file
leaves all four fields untouched (and raises no error), and a file providing
exactly one of the four keys overrides that field alone, leaving the other
three at their previous (default/environment) values. -/
theorem load_config_field_independence (cfg : ConfigState) :
    load_config cfg none = .ok cfg ∧
    (∀ s, load_config cfg (some ⟨some s, none, none, none⟩) =
      .ok { cfg with access_key_id := s }) ∧
    (∀ s, load_config cfg (some ⟨none, some s, none, none⟩) =
      .ok { cfg with access_key_secret := s }) ∧
    (∀ n : ℤ, load_config cfg (some ⟨none, none, some (JVal.num (n : ℚ)), none⟩) =
      .ok { cfg with max_traffic_gb := n }) ∧
    (∀ s, load_config cfg (some ⟨none, none, none, some s⟩) =
      .ok { cfg with feishu_webhook_url := s }) := by
  refine ⟨rfl, fun s => rfl, fun s => rfl, fun n => ?_, fun s => rfl⟩
  simp [load_config, pyInt, ratTrunc_intCast]

/-- C10: the threshold always passes through `int()`: a numeric file value is
truncated toward zero (20.5 becomes 20, -20.5 becomes -20, not -21), a
non-numeric file value makes `load_config` raise (uncaught, hence fatal), and
the environment default "20" parses to the integer 20. -/
theorem load_config_threshold_int_coercion (cfg : ConfigState) :
    (∀ q : ℚ, load_config cfg (some ⟨none, none, some (JVal.num q), none⟩) =
      .ok { cfg with max_traffic_gb := ratTrunc q }) ∧
    ratTrunc (41 / 2 : ℚ) = 20 ∧
    ratTrunc (-41 / 2 : ℚ) = -20 ∧
    (∀ s : String, pyStrToInt? s = none →
      load_config cfg (some ⟨none, none, some (JVal.str s), none⟩) =
        .error ("invalid literal for int() with base 10: " ++ s)) ∧
    env_defaults none none none none = .ok ⟨"", "", 20, ""⟩ := by
  refine ⟨fun q => rfl, ?_, ?_, fun s hs => ?_, rfl⟩
  · unfold ratTrunc
    rw [if_pos (by norm_num : (0 : ℚ) ≤ 41 / 2)]
    norm_num [Int.floor_eq_iff]
  · unfold ratTrunc
    rw [if_neg (by norm_num : ¬ (0 : ℚ) ≤ -41 / 2)]
    norm_num [Int.ceil_eq_iff]
  · simp [load_config, pyInt, hs]

/-- C10 witness: loading a file whose threshold is the string "abc" produces
the `ValueError`. -/
theorem load_config_threshold_int_coercion_witness :
    load_config ⟨"", "", 20, ""⟩ (some ⟨none, none, some (JVal.str "abc"), none⟩) =
      .error ("invalid literal for int() with base 10: " ++ "abc") :=
  (load_config_threshold_int_coercion ⟨"", "", 20, ""⟩).2.2.2.1 "abc" (by decide)

/-- C5: with a non-empty webhook URL (and a positive threshold, so the
percentage computation does not raise), the notifier posts exactly the built
message, whose title and colour are the alert ones exactly when exceeded and
the normal ones otherwise, and whose body contains the measured value to 3
decimal places, the threshold as configured, and the percentage
measured/threshold×100 to 1 decimal place (e.g. 15/20 renders as "75.0"). -/
theorem send_feishu_alert_message_content (w : String) (hw : w ≠ "") (po : PostOutcome)
    (g : ℚ) (t : ℤ) (ht : 0 < t) (ex : Bool) :
    (send_feishu_alert w po g t ex).posts = [feishu_message g t ex] ∧
    (feishu_message g t ex).title
      = (if ex then "🚨 流量超限告警" else "✅ 流量正常通知") ∧
    (feishu_message g t ex).template = (if ex then "red" else "green") ∧
    strContains (feishu_message g t ex).content (formatFixed 3 g) ∧
    strContains (feishu_message g t ex).content (toString t) ∧
    strContains (feishu_message g t ex).content (formatFixed 1 (g / (t : ℚ) * 100)) ∧
    formatFixed 1 ((15 : ℚ) / 20 * 100) = "75.0" := by
  have ht' : t ≠ 0 := ht.ne'
  refine ⟨?_, rfl, rfl, ?_, ?_, ?_, ?_⟩
  · unfold send_feishu_alert
    rw [if_neg hw, if_neg ht']
    cases po with
    | raise e => rfl
    | response s => by_cases h200 : s = 200 <;> simp [h200]
  · exact ⟨"**阿里云CDT流量监控**\n\n当前流量: ",
      " GB\n阈值限制: " ++ toString t ++ " GB\n使用率: " ++
        formatFixed 1 (g / (t : ℚ) * 100) ++ "%\n\n" ++
        (if ex then "❌ 流量已超过设定阈值，请及时处理！"
         else "✅ 流量使用正常，未超过阈值"),
      by simp [feishu_message, String.append_assoc]⟩
  · exact ⟨"**阿里云CDT流量监控**\n\n当前流量: " ++ formatFixed 3 g ++ " GB\n阈值限制: ",
      " GB\n使用率: " ++ formatFixed 1 (g / (t : ℚ) * 100) ++ "%\n\n" ++
        (if ex then "❌ 流量已超过设定阈值，请及时处理！"
         else "✅ 流量使用正常，未超过阈值"),
      by simp [feishu_message, String.append_assoc]⟩
  · exact ⟨"**阿里云CDT流量监控**\n\n当前流量: " ++ formatFixed 3 g ++
      " GB\n阈值限制: " ++ toString t ++ " GB\n使用率: ",
      "%\n\n" ++
        (if ex then "❌ 流量已超过设定阈值，请及时处理！"
         else "✅ 流量使用正常，未超过阈值"),
      by simp [feishu_message, String.append_assoc]⟩
  · rw [show ((15 : ℚ) / 20 * 100) = 75 by norm_num]
    norm_num [formatFixed, roundHalfEven]
    rfl

/-- C5 witness: a concrete normal-status report at 15 GB against a 20 GB
threshold posts the built message, whose body contains the percentage string,
and 15/20×100 formats to "75.0". -/
theorem send_feishu_alert_message_content_witness :
    (send_feishu_alert "https://example.com/hook" (PostOutcome.response 200) 15 20 false).posts
      = [feishu_message 15 20 false] ∧
    strContains (feishu_message 15 20 false).content
      (formatFixed 1 (15 / ((20 : ℤ) : ℚ) * 100)) ∧
    formatFixed 1 ((15 : ℚ) / 20 * 100) = "75.0" :=
  ⟨(send_feishu_alert_message_content "https://example.com/hook" (by decide)
      (PostOutcome.response 200) 15 20 (by decide) false).1,
   (send_feishu_alert_message_content "https://example.com/hook" (by decide)
      (PostOutcome.response 200) 15 20 (by decide) false).2.2.2.2.2.1,
   (send_feishu_alert_message_content "https://example.com/hook" (by decide)
      (PostOutcome.response 200) 15 20 (by decide) false).2.2.2.2.2.2⟩

/-- C7: with a non-empty webhook URL (and a positive threshold) the notifier
performs exactly one POST; it returns `True` exactly on a 200 status, and any
other status or a raised transport error yields a single logged message and
`False` — still with exactly the one POST, never a retry. -/
theorem send_feishu_alert_single_post (w : String) (hw : w ≠ "") (g : ℚ) (t : ℤ)
    (ht : 0 < t) (ex : Bool) :
    (∀ s : ℕ, (send_feishu_alert w (PostOutcome.response s) g t ex).posts.length = 1 ∧
      ((send_feishu_alert w (PostOutcome.response s) g t ex).retVal = true ↔ s = 200) ∧
      (s ≠ 200 → (send_feishu_alert w (PostOutcome.response s) g t ex).logs
        = ["飞书通知发送失败: " ++ toString s])) ∧
    (∀ e : String, (send_feishu_alert w (PostOutcome.raise e) g t ex).posts.length = 1 ∧
      (send_feishu_alert w (PostOutcome.raise e) g t ex).retVal = false ∧
      (send_feishu_alert w (PostOutcome.raise e) g t ex).logs
        = ["发送飞书通知时出错: " ++ e]) := by
  have ht' : t ≠ 0 := ht.ne'
  constructor
  · intro s
    by_cases h200 : s = 200 <;> simp [send_feishu_alert, hw, ht', h200]
  · intro e
    simp [send_feishu_alert, hw, ht']

/-- C7 witness: a 404 response on the single POST leaves exactly one outbound
message, a `False` return and the failure log line. -/
theorem send_feishu_alert_single_post_witness :
    (send_feishu_alert "https://feishu.example/hook" (PostOutcome.response 404) 25 20 true).posts.length = 1 ∧
    (send_feishu_alert "https://feishu.example/hook" (PostOutcome.response 404) 25 20 true).logs
      = ["飞书通知发送失败: " ++ toString (404 : ℕ)] :=
  ⟨((send_feishu_alert_single_post "https://feishu.example/hook" (by decide) 25 20
      (by decide) true).1 404).1,
   ((send_feishu_alert_single_post "https://feishu.example/hook" (by decide) 25 20
      (by decide) true).1 404).2.2 (by decide)⟩
